import Mathlib

/-!
Shallow embedding of the BEM-2D-Python solver core: the FSI coupling driver
(`FSIClass.py`) and the influence/Kutta/wake module (`functions_influence.py`).

Real (floating-point) arithmetic of the source is modelled exactly: over `ℝ`
where square roots occur (the norm bookkeeping of the FSI driver) and over `ℚ`
for the purely rational control-flow and update rules of the Kutta loop, the
post-loop bookkeeping, the wake advection and `np.interp`.
-/

namespace BEM2D

/-! ## numpy array helpers for `(N+1, 2)`-shaped arrays, given as lists of rows -/

/-- Elementwise sum of two n-by-2 arrays (numpy `+`). -/
def vadd (a b : List (ℝ × ℝ)) : List (ℝ × ℝ) :=
  List.zipWith (fun p q => (p.1 + q.1, p.2 + q.2)) a b

/-- Elementwise difference of two n-by-2 arrays (numpy `-`). -/
def vsub (a b : List (ℝ × ℝ)) : List (ℝ × ℝ) :=
  List.zipWith (fun p q => (p.1 - q.1, p.2 - q.2)) a b

/-- Scalar times an n-by-2 array (numpy scalar broadcasting). -/
def smul (c : ℝ) (a : List (ℝ × ℝ)) : List (ℝ × ℝ) :=
  a.map (fun p => (c * p.1, c * p.2))

/-- `np.linalg.norm(M, ord=2)` of an n-by-2 matrix `M`: the largest singular
value, i.e. the square root of the largest eigenvalue of the 2-by-2 Gram matrix
`Mᵀ M = [[a, b], [b, c]]` with `a = Σ x²`, `b = Σ x z`, `c = Σ z²`. -/
noncomputable def specNorm2 (m : List (ℝ × ℝ)) : ℝ :=
  Real.sqrt ((((m.map (fun p => p.1 ^ 2)).sum + (m.map (fun p => p.2 ^ 2)).sum) +
      Real.sqrt (((m.map (fun p => p.1 ^ 2)).sum - (m.map (fun p => p.2 ^ 2)).sum) ^ 2 +
        4 * (m.map (fun p => p.1 * p.2)).sum ^ 2)) / 2)

/-- `np.linalg.norm(M, ord=np.inf)` of an n-by-2 matrix: maximum absolute row sum. -/
def infNormRows (m : List (ℝ × ℝ)) : ℝ :=
  (m.map (fun p => |p.1| + |p.2|)).foldr max 0

/-- `np.dot(M.T, N)` for two n-by-2 matrices: the 2-by-2 matrix of column dot
products, entry `(r, c) = Σ_i M[i][r] * N[i][c]`. -/
def dotT2 (mM mN : List (ℝ × ℝ)) : (ℝ × ℝ) × (ℝ × ℝ) :=
  ((((mM.zip mN).map (fun p => p.1.1 * p.2.1)).sum,
    ((mM.zip mN).map (fun p => p.1.1 * p.2.2)).sum),
   (((mM.zip mN).map (fun p => p.1.2 * p.2.1)).sum,
    ((mM.zip mN).map (fun p => p.1.2 * p.2.2)).sum))

/-- `np.linalg.norm(A, ord=2)` of a 2-by-2 matrix `A = ((p, q), (r, s))`: the
largest singular value, `√((T + √(T² − 4·(det A)²)) / 2)` with
`T = p² + q² + r² + s²` the trace of `Aᵀ A`. -/
noncomputable def specNorm2x2 (m : (ℝ × ℝ) × (ℝ × ℝ)) : ℝ :=
  Real.sqrt (((m.1.1 ^ 2 + m.1.2 ^ 2 + m.2.1 ^ 2 + m.2.2 ^ 2) +
      Real.sqrt ((m.1.1 ^ 2 + m.1.2 ^ 2 + m.2.1 ^ 2 + m.2.2 ^ 2) ^ 2 -
        4 * (m.1.1 * m.2.2 - m.1.2 * m.2.1) ^ 2)) / 2)

/-! ## `FSIClass.FSI`: state and the embedded methods -/

/-- The fields of `FSIClass.FSI` read or written by `setInterfaceDisplacemet`
and `calcFSIResidual` (`__init__`, lines 22-37, and `readFsiControls`). -/
structure FSI where
  fluidNodeDispl : List (ℝ × ℝ)
  fluidNodeDisplOld : List (ℝ × ℝ)
  solidNodeDispl : List (ℝ × ℝ)
  nodeDispl : List (ℝ × ℝ)
  nodeDisplOld : List (ℝ × ℝ)
  fsiResidual : List (ℝ × ℝ)
  fsiResidualOld : List (ℝ × ℝ)
  nodeResidual : List (ℝ × ℝ)
  nodeResidualOld : List (ℝ × ℝ)
  initialFsiResidualNorm : ℝ
  maxInitialFsiResidualNorm : ℝ
  fsiResidualNorm : ℝ
  maxFsiResidualNorm : ℝ
  maxMagFsiResidual : ℝ
  fsiRelaxationFactor : ℝ
  DU : List (ℝ × ℝ)
  maxDU : ℝ

/-- The error lines printed by the invalid-scheme branch of
`FSI.setInterfaceDisplacemet` (lines 85-88; `%s` formatting inlined). -/
def invalidSchemeMsg (couplingScheme : String) : List String :=
  ["ERROR! Invalid coupling scheme \"" ++ couplingScheme ++ "\"",
   "Valid coupling schemes are:",
   "    \"Fixed Relaxation\"",
   "    \"Aitken\""]

/-- Lines 74-75 of `FSIClass.py`: the recomputed, pre-clamp Aitken relaxation
factor.  `np.dot(fsiResidualOld.T, fsiResidualOld - fsiResidual)` is a 2-by-2
matrix; multiplying by the scalar factor and dividing by the squared spectral
norm of the residual difference keeps it 2-by-2, and line 75 collapses it back
to a scalar with `np.linalg.norm(·, ord=2)`. -/
noncomputable def aitkenFactorRaw (s : FSI) : ℝ :=
  specNorm2x2
    ((s.fsiRelaxationFactor * (dotT2 s.fsiResidualOld (vsub s.fsiResidualOld s.fsiResidual)).1.1 /
        specNorm2 (vsub s.fsiResidualOld s.fsiResidual) ^ 2,
      s.fsiRelaxationFactor * (dotT2 s.fsiResidualOld (vsub s.fsiResidualOld s.fsiResidual)).1.2 /
        specNorm2 (vsub s.fsiResidualOld s.fsiResidual) ^ 2),
     (s.fsiRelaxationFactor * (dotT2 s.fsiResidualOld (vsub s.fsiResidualOld s.fsiResidual)).2.1 /
        specNorm2 (vsub s.fsiResidualOld s.fsiResidual) ^ 2,
      s.fsiRelaxationFactor * (dotT2 s.fsiResidualOld (vsub s.fsiResidualOld s.fsiResidual)).2.2 /
        specNorm2 (vsub s.fsiResidualOld s.fsiResidual) ^ 2))

/-- `FSI.setInterfaceDisplacemet` (lines 56-88; the method-name typo is the
source's).  Returns the updated state together with the list of printed lines:
the invalid-scheme branch only prints (the source's own TODO notes it does not
know how to halt execution) and leaves the state untouched. -/
noncomputable def setInterfaceDisplacemet (s : FSI) (outerCorr : ℕ)
    (couplingScheme : String) : FSI × List String :=
  if outerCorr < 3 ∨ couplingScheme = "FixedRelaxation" then
    ({ s with
        fluidNodeDisplOld := s.fluidNodeDispl
        nodeDisplOld := s.nodeDispl
        fluidNodeDispl := vadd s.fluidNodeDispl (smul s.fsiRelaxationFactor s.fsiResidual)
        nodeDispl := vadd s.nodeDispl (smul s.fsiRelaxationFactor s.nodeResidual) }, [])
  else if 3 ≤ outerCorr ∧ couplingScheme = "Aitken" then
    ({ s with
        fsiRelaxationFactor :=
          if 1 < aitkenFactorRaw s then 1 else aitkenFactorRaw s
        fluidNodeDisplOld := s.fluidNodeDispl
        nodeDisplOld := s.nodeDispl
        fluidNodeDispl := vadd s.fluidNodeDispl
          (smul (if 1 < aitkenFactorRaw s then 1 else aitkenFactorRaw s) s.fsiResidual)
        nodeDispl := vadd s.nodeDispl
          (smul (if 1 < aitkenFactorRaw s then 1 else aitkenFactorRaw s) s.nodeResidual) }, [])
  else
    (s, invalidSchemeMsg couplingScheme)

/-- `FSI.calcFSIResidual` (lines 320-368).  `tempNodes` and `nodes` stand for
`Solid.tempNodes[:, 0:2]` and `Solid.nodes[:, 0:2]`. -/
noncomputable def calcFSIResidual (s : FSI) (tempNodes nodes : List (ℝ × ℝ))
    (outerCorr : ℕ) : FSI :=
  { s with
      solidNodeDispl := s.DU
      fsiResidualOld := s.fsiResidual
      nodeResidualOld := s.nodeResidual
      fsiResidual := vsub s.DU s.fluidNodeDispl
      nodeResidual := vsub (vsub tempNodes nodes) s.nodeDispl
      initialFsiResidualNorm :=
        if outerCorr = 1 then specNorm2 (vsub s.DU s.fluidNodeDispl)
        else s.initialFsiResidualNorm
      maxInitialFsiResidualNorm :=
        if outerCorr = 1 then infNormRows (vsub s.DU s.fluidNodeDispl)
        else s.maxInitialFsiResidualNorm
      fsiResidualNorm :=
        specNorm2 (vsub s.DU s.fluidNodeDispl) /
          (if outerCorr = 1 then specNorm2 (vsub s.DU s.fluidNodeDispl)
           else s.initialFsiResidualNorm)
      maxFsiResidualNorm :=
        infNormRows (vsub s.DU s.fluidNodeDispl) /
          (if outerCorr = 1 then infNormRows (vsub s.DU s.fluidNodeDispl)
           else s.maxInitialFsiResidualNorm)
      maxMagFsiResidual :=
        ((vsub s.DU s.fluidNodeDispl).map
          (fun p => Real.sqrt (p.1 ^ 2 + p.2 ^ 2))).foldr max 0 }

/-! ## `functions_influence.quilt`: the Kutta iteration loop (lines 58-110),
for the configuration the iteration serves (a single swimmer, `SW_KUTTA == 1`). -/

/-- `np.dot` of a matrix (list of rows) with a vector. -/
def matVec (m : List (List ℚ)) (v : List ℚ) : List ℚ :=
  m.map (fun row => (List.zipWith (fun a b => a * b) row v).sum)

/-- Per-iteration data of the `quilt` Kutta loop. -/
structure KuttaLoop where
  aInv : List (List ℚ)
  muGuess0 : ℚ
  muGuess1 : ℚ
  deltaCp0 : ℚ
  deltaCp1 : ℚ
  mu : List ℚ
  cp : List ℚ

/-- Inputs fixed before the loop: `np.linalg.inv(a + c)` (line 70),
`np.linalg.inv(a)` (line 85), the explicit-Kutta right-hand side `b` (line 72),
the guess-dependent right-hand side (line 99) and the external `Body.pressure`
collaborator producing `cp` from the current `mu` (line 104). -/
structure KuttaEnv where
  aInvAug : List (List ℚ)
  aInvUn : List (List ℚ)
  rhs1 : List ℚ
  rhsOf : ℚ → List ℚ
  cpOf : List ℚ → List ℚ

/-- One pass of the `while` body of `quilt` (lines 61-107) at iteration count
`nIter`, for a single swimmer with `SW_KUTTA == 1`: the branch on `n_iter`,
followed by the pressure call and the update of `delta_cp[0]`.
The constants `8 / 10` and the source's `0.8` agree exactly. -/
def quiltKuttaStep (env : KuttaEnv) (nIter : ℕ) (s : KuttaLoop) : KuttaLoop :=
  let s' :=
    if nIter = 1 then
      { s with
          aInv := env.aInvAug
          mu := matVec env.aInvAug env.rhs1
          muGuess0 := (matVec env.aInvAug env.rhs1).getLastD 0 -
            (matVec env.aInvAug env.rhs1).headD 0 }
    else if nIter = 2 then
      { s with
          aInv := env.aInvUn
          muGuess1 := s.muGuess0
          deltaCp1 := s.deltaCp0
          muGuess0 := 8 / 10 * s.muGuess0
          mu := matVec env.aInvUn (env.rhsOf (8 / 10 * s.muGuess0)) }
    else
      { s with
          muGuess1 := s.muGuess0
          deltaCp1 := s.deltaCp0
          muGuess0 := s.muGuess0 -
            s.deltaCp0 / ((s.deltaCp0 - s.deltaCp1) / (s.muGuess0 - s.muGuess1))
          mu := matVec s.aInv (env.rhsOf (s.muGuess0 -
            s.deltaCp0 / ((s.deltaCp0 - s.deltaCp1) / (s.muGuess0 - s.muGuess1)))) }
  { s' with
      cp := env.cpOf s'.mu
      deltaCp0 := |(env.cpOf s'.mu).getLastD 0 - (env.cpOf s'.mu).headD 0| }

/-- The `while True` loop of `quilt` with its exit test (line 108):
`delta_cp[0] < 0.0001 or n_iter >= 1000` (the literal `0.0001` is `1 / 10000`
exactly).  `fuel` bounds the recursion depth; the loop is entered with
`nIter = 1` and `fuel = 1000`, and a `none` result would mean the fuel ran out
before the exit test fired. -/
def quiltKuttaRun (env : KuttaEnv) : ℕ → ℕ → KuttaLoop → Option (ℕ × KuttaLoop)
  | 0, _, _ => none
  | fuel + 1, nIter, s =>
    let s' := quiltKuttaStep env nIter s
    if s'.deltaCp0 < 1 / 10000 ∨ 1000 ≤ nIter then some (nIter, s')
    else quiltKuttaRun env fuel (nIter + 1) s'

/-! ## `functions_influence.quilt`: post-loop bookkeeping (lines 112-127) -/

/-- Per-swimmer fields touched by the bookkeeping after the Kutta loop. -/
structure SwimmerPost where
  muPast0 : List ℚ
  muPast1 : List ℚ
  bodyMu : List ℚ
  muGuess0 : ℚ
  edgeMu0 : ℚ
  edgeMu1 : ℚ
  wakeAlpha0 : ℚ
  edgeGamma0 : ℚ
  edgeGamma1 : ℚ
  bodyGamma : List ℚ

/-- `Body.gamma` from `Body.mu` (lines 125-127): `gamma[0] = -mu[0]`,
`gamma[1:-1] = mu[:-1] - mu[1:]`, `gamma[-1] = mu[-1]`. -/
def gammaOf (mu : List ℚ) : List ℚ :=
  -mu.headD 0 :: (List.zipWith (fun a b => a - b) mu.dropLast (mu.drop 1) ++ [mu.getLastD 0])

/-- Lines 112-127 of `quilt`, for one swimmer at timestep `i`: shift the
doublet history, set `Edge.mu[0]` to the converged guess, set the first shed
wake element's strength only when `i > 1`, and derive the vortex strengths. -/
def quiltPost (i : ℕ) (s : SwimmerPost) : SwimmerPost :=
  { s with
      muPast1 := s.muPast0
      muPast0 := s.bodyMu
      edgeMu0 := s.muGuess0
      wakeAlpha0 := if 1 < i then s.edgeMu1 - s.muGuess0 else s.wakeAlpha0
      edgeGamma0 := -s.muGuess0
      edgeGamma1 := s.muGuess0
      bodyGamma := gammaOf s.bodyMu }

/-! ## `functions_influence.quilt`: the first-iteration right-hand side
(lines 15-24 and 58-72) and the Python loop-variable leak -/

/-- Per-swimmer data read by the first-iteration right-hand-side assembly. -/
structure SwimmerRHS where
  sigma : List ℚ
  edgeN : ℕ
  edgeMu1 : ℚ

/-- The final value a Python `for` loop leaves in its loop variable: `some` of
the last element of the iterated list, `none` if the list is empty. -/
def lastLoopVar {α : Type} (l : List α) : Option α :=
  l.foldl (fun _ x => some x) none

/-- Lines 15-24 of `quilt`: the running assignment of the `i_e` offsets
(`Swim.i_e = n_e; n_e += Swim.Edge.N`), pairing each swimmer with its offset. -/
def assignOffsets : List SwimmerRHS → ℕ → List (ℕ × SwimmerRHS)
  | [], _ => []
  | sw :: rest, acc => (acc, sw) :: assignOffsets rest (acc + sw.edgeN)

/-- Lines 29-32 of `quilt`: the global `sigma_all`, the row-block
concatenation of each swimmer's `Body.sigma`. -/
def sigmaAll (sws : List SwimmerRHS) : List ℚ :=
  (sws.map (fun sw => sw.sigma)).flatten

/-- Dot product of a matrix row, given as a function of the column index,
with a vector of concrete entries. -/
def dotFn (f : ℕ → ℚ) (v : List ℚ) : ℚ :=
  (v.enum.map (fun p => f p.1 * p.2)).sum

/-- Line 72 of `quilt`:
`b = -np.dot(b_s, sigma_all) - np.dot(b_de[:, SwimI.i_e+1], Swim.Edge.mu[1])`,
where `SwimI` and `Swim` are loop variables left over from the preceding `for`
loops, i.e. the last swimmer of the list.  `bs j k` and `bde j k` are the
entries of `b_s` and `b_de`.  An empty swimmer list leaves the loop variables
unbound (a Python `NameError`), modelled as `none`. -/
def quiltRhs1 (bs bde : ℕ → ℕ → ℚ) (sws : List SwimmerRHS) : Option (ℕ → ℚ) :=
  match lastLoopVar (assignOffsets sws 0) with
  | none => none
  | some (ie, sw) =>
    some (fun j => -(dotFn (bs j) (sigmaAll sws)) - bde j (ie + 1) * sw.edgeMu1)

/-! ## `functions_influence.wake_rollup` (lines 129-231): position update -/

/-- Modelled from the spec: `Wake.get_relevant(i)` is defined in the Swimmer
classes, which are not part of the embedded sources; per the spec the
"relevant" subset at timestep `i` is all elements with index below the current
timestep count, returned as (count, start index). -/
def getRelevant (i : ℕ) : ℕ × ℕ := (i, 0)

/-- Lines 224-231 of `wake_rollup`: advance the positions of the relevant
wake range by the induced velocity times `DEL_T` (at `i == 0` the function
does nothing).  `vel` abstracts the per-element induced velocity plus the
`u_psi` particle correction computed by the preceding kernel code; wake
positions are modelled as a function from element index to coordinates. -/
def wakeRollupAdvect (i : ℕ) (delT : ℚ) (vel : ℕ → ℚ × ℚ) (w : ℕ → ℚ × ℚ) :
    ℕ → ℚ × ℚ :=
  if i = 0 then w
  else fun k =>
    if (getRelevant i).2 ≤ k ∧ k < (getRelevant i).2 + (getRelevant i).1 then
      ((w k).1 + (vel k).1 * delT, (w k).2 + (vel k).2 * delT)
    else w k

/-- Modelled from the spec: wake growth happens in the Swimmer classes, which
are not part of the embedded sources; per the spec the wake "grows by exactly
one element per timestep", appended in timestep order (`shed k` is the element
shed at timestep `k`). -/
def wakeElems (shed : ℕ → ℚ × ℚ) : ℕ → List (ℚ × ℚ)
  | 0 => []
  | i + 1 => wakeElems shed i ++ [shed i]

/-! ## `np.interp` as used by `FSI.setInterfaceForce` and `FSI.getDisplacements` -/

/-- Helper for `npInterp`: scan for the bracketing interval, having already
established `x ≥ x0` for the current left endpoint `(x0, f0)`. -/
def npInterpGo (r x0 f0 : ℚ) : List (ℚ × ℚ) → ℚ → ℚ
  | [], x => if x0 < x then r else f0
  | (x1, f1) :: rest, x =>
    if x ≤ x1 then f0 + (f1 - f0) * (x - x0) / (x1 - x0)
    else npInterpGo r x1 f1 rest x

/-- `np.interp(x, xp, fp, left=l, right=r)` for increasing abscissae, with the
sample points given as (xp, fp) pairs; numpy raises on an empty `xp`,
modelled as `none`. -/
def npInterp (l r : ℚ) (pts : List (ℚ × ℚ)) (x : ℚ) : Option ℚ :=
  match pts with
  | [] => none
  | (x0, f0) :: rest => some (if x < x0 then l else npInterpGo r x0 f0 rest x)

/-- Lines 176-178 of `FSIClass.setInterfaceForce`: linear interpolation of the
collapsed loads with `left=0, right=0`. -/
def forceInterp (pts : List (ℚ × ℚ)) (x : ℚ) : Option ℚ :=
  npInterp 0 0 pts x

/-- Lines 289-292 of `FSIClass.getDisplacements`: linear interpolation of the
surface nodes with `left=True, right=True`; the Python booleans coerce to the
float `1.0`. -/
def displInterp (pts : List (ℚ × ℚ)) (x : ℚ) : Option ℚ :=
  npInterp 1 1 pts x

/-! ## Helper lemmas and concrete fixtures -/

lemma specNorm2x2_nonneg (m : (ℝ × ℝ) × (ℝ × ℝ)) : 0 ≤ specNorm2x2 m :=
  Real.sqrt_nonneg _

lemma specNorm2_single_one : specNorm2 [((1 : ℝ), 0)] = 1 := by
  simp [specNorm2]

lemma specNorm2_single_negOne : specNorm2 [((-1 : ℝ), 0)] = 1 := by
  simp [specNorm2]

lemma specNorm2_single_zero : specNorm2 [((0 : ℝ), 0)] = 0 := by
  simp [specNorm2]

lemma specNorm2x2_zero : specNorm2x2 (((0 : ℝ), 0), (0, 0)) = 0 := by
  simp [specNorm2x2]

lemma infNormRows_single_one : infNormRows [((1 : ℝ), 0)] = 1 := by
  norm_num [infNormRows]

/-- All-zero FSI state with a single interface node, a concrete test fixture
(the state `__init__` builds for `Body.N = 0`, after `readFsiControls` with a
fixed-point factor of `1/2`). -/
noncomputable def zeroFSI : FSI where
  fluidNodeDispl := [(0, 0)]
  fluidNodeDisplOld := [(0, 0)]
  solidNodeDispl := [(0, 0)]
  nodeDispl := [(0, 0)]
  nodeDisplOld := [(0, 0)]
  fsiResidual := [(0, 0)]
  fsiResidualOld := [(0, 0)]
  nodeResidual := [(0, 0)]
  nodeResidualOld := [(0, 0)]
  initialFsiResidualNorm := 0
  maxInitialFsiResidualNorm := 0
  fsiResidualNorm := 0
  maxFsiResidualNorm := 0
  maxMagFsiResidual := 0
  fsiRelaxationFactor := 1 / 2
  DU := [(0, 0)]
  maxDU := 0

/-! ## C1: first-sub-iteration residual normalization -/

/-- C1 (amended): immediately after `calcFSIResidual` runs with
`outerCorr == 1`, the scaled norms `fsiResidualNorm` and `maxFsiResidualNorm`
both equal exactly 1 — provided the unscaled first-sub-iteration residual
norms are nonzero (a zero first residual makes the self-normalization divide
zero by zero instead). -/
theorem calcFSIResidual_first_norms_one (s : FSI) (tempNodes nodes : List (ℝ × ℝ))
    (h2 : specNorm2 (vsub s.DU s.fluidNodeDispl) ≠ 0)
    (hinf : infNormRows (vsub s.DU s.fluidNodeDispl) ≠ 0) :
    (calcFSIResidual s tempNodes nodes 1).fsiResidualNorm = 1 ∧
      (calcFSIResidual s tempNodes nodes 1).maxFsiResidualNorm = 1 := by
  constructor
  · simp only [calcFSIResidual, if_pos rfl]
    exact div_self h2
  · simp only [calcFSIResidual, if_pos rfl]
    exact div_self hinf

theorem calcFSIResidual_first_norms_one_witness :
    (calcFSIResidual { zeroFSI with DU := [(1, 0)] } [(0, 0)] [(0, 0)] 1).fsiResidualNorm = 1 ∧
      (calcFSIResidual { zeroFSI with DU := [(1, 0)] } [(0, 0)] [(0, 0)] 1).maxFsiResidualNorm = 1 := by
  have hv : vsub ({ zeroFSI with DU := [(1, 0)] } : FSI).DU
      ({ zeroFSI with DU := [(1, 0)] } : FSI).fluidNodeDispl = [((1 : ℝ), 0)] := by
    simp [zeroFSI, vsub]
  exact calcFSIResidual_first_norms_one _ _ _
    (by rw [hv, specNorm2_single_one]; norm_num)
    (by rw [hv, infNormRows_single_one]; norm_num)

/-- C1 (counterexample): at a state whose first-sub-iteration residual is
identically zero (solid-induced displacement equal to the applied fluid
displacement), the self-normalized `fsiResidualNorm` is not 1: the source
computes `0.0 / 0.0` (a NaN in numpy; `0` in the real-number embedding). -/
theorem calcFSIResidual_zero_residual_cex :
    (calcFSIResidual zeroFSI [(0, 0)] [(0, 0)] 1).fsiResidualNorm ≠ 1 := by
  have hv : vsub (zeroFSI : FSI).DU (zeroFSI : FSI).fluidNodeDispl = [((0 : ℝ), 0)] := by
    simp [zeroFSI, vsub]
  simp only [calcFSIResidual, if_pos rfl, hv, specNorm2_single_zero]
  norm_num

/-! ## C2: Aitken relaxation factor bounds -/

/-- The coupling-scheme strings of the configuration surface, plus two
syntactically valid but unsupported scheme names used as concrete inputs. -/
def schemeAitken : String := "Aitken"

def schemeGauss : String := "Gauss"

def schemeOther : String := "Other"

/-- Fixture for the Aitken branch: old residual `[(2,0)]`, new residual
`[(1,0)]`, so the residual difference is nonzero. -/
noncomputable def aitkenFSI : FSI :=
  { zeroFSI with fsiResidualOld := [(2, 0)], fsiResidual := [(1, 0)] }

/-- Fixture for the degenerate-numerator Aitken case: old residual zero, new
residual `[(1,0)]`; the residual difference is nonzero (non-degenerate in the
claim's sense) but `dot(residualOld, residualOld - residual)` vanishes. -/
noncomputable def aitkenZeroOldFSI : FSI :=
  { zeroFSI with fsiResidual := [(1, 0)] }

/-- C2 (amended): for `outerCorr ≥ 3` under the `Aitken` scheme with a
non-degenerate residual history, the relaxation factor is recomputed as the
spectral norm of `factor * dot(residualOld, residualOld - residual) /
‖residualOld - residual‖²` clamped to at most 1, and the result satisfies
`0 ≤ factor ≤ 1` (the lower bound is not strict: the recomputed norm can be
exactly zero, e.g. when the old residual is orthogonal to the residual
difference). -/
theorem setInterfaceDisplacemet_aitken_bounds (s : FSI) (outerCorr : ℕ)
    (h3 : 3 ≤ outerCorr)
    (_hnd : specNorm2 (vsub s.fsiResidualOld s.fsiResidual) ≠ 0) :
    (setInterfaceDisplacemet s outerCorr schemeAitken).1.fsiRelaxationFactor =
        min 1 (aitkenFactorRaw s) ∧
      0 ≤ (setInterfaceDisplacemet s outerCorr schemeAitken).1.fsiRelaxationFactor ∧
      (setInterfaceDisplacemet s outerCorr schemeAitken).1.fsiRelaxationFactor ≤ 1 := by
  have hc1 : ¬ (outerCorr < 3 ∨ schemeAitken = "FixedRelaxation") := by
    push_neg
    exact ⟨by omega, by decide⟩
  have hc2 : 3 ≤ outerCorr ∧ schemeAitken = "Aitken" := ⟨h3, rfl⟩
  have key : (setInterfaceDisplacemet s outerCorr schemeAitken).1.fsiRelaxationFactor =
      if 1 < aitkenFactorRaw s then 1 else aitkenFactorRaw s := by
    simp only [setInterfaceDisplacemet]
    rw [if_neg hc1, if_pos hc2]
  have h0 : 0 ≤ aitkenFactorRaw s := by
    unfold aitkenFactorRaw
    exact specNorm2x2_nonneg _
  rw [key]
  refine ⟨?_, ?_, ?_⟩
  · split_ifs with h
    · exact (min_eq_left (le_of_lt h)).symm
    · exact (min_eq_right (not_lt.mp h)).symm
  · split_ifs with h
    · norm_num
    · exact h0
  · split_ifs with h
    · exact le_refl 1
    · exact not_lt.mp h

theorem setInterfaceDisplacemet_aitken_bounds_witness :
    (setInterfaceDisplacemet aitkenFSI 3 schemeAitken).1.fsiRelaxationFactor =
        min 1 (aitkenFactorRaw aitkenFSI) ∧
      0 ≤ (setInterfaceDisplacemet aitkenFSI 3 schemeAitken).1.fsiRelaxationFactor ∧
      (setInterfaceDisplacemet aitkenFSI 3 schemeAitken).1.fsiRelaxationFactor ≤ 1 := by
  have hv : vsub aitkenFSI.fsiResidualOld aitkenFSI.fsiResidual = [((1 : ℝ), 0)] := by
    simp [aitkenFSI, vsub]
    norm_num
  exact setInterfaceDisplacemet_aitken_bounds aitkenFSI 3 (by norm_num)
    (by rw [hv, specNorm2_single_one]; norm_num)

/-- C2 (counterexample): with a zero old residual and nonzero new residual the
residual difference is nonzero (non-degenerate in the claim's sense), yet the
recomputed relaxation factor is exactly 0, refuting the strict bound
`0 < factor`. -/
theorem setInterfaceDisplacemet_aitken_zero_cex :
    specNorm2 (vsub aitkenZeroOldFSI.fsiResidualOld aitkenZeroOldFSI.fsiResidual) ≠ 0 ∧
      (setInterfaceDisplacemet aitkenZeroOldFSI 3 schemeAitken).1.fsiRelaxationFactor = 0 := by
  have hv : vsub aitkenZeroOldFSI.fsiResidualOld aitkenZeroOldFSI.fsiResidual =
      [((-1 : ℝ), 0)] := by
    simp [aitkenZeroOldFSI, zeroFSI, vsub]
  have hraw : aitkenFactorRaw aitkenZeroOldFSI = 0 := by
    unfold aitkenFactorRaw
    rw [hv]
    have hd : dotT2 aitkenZeroOldFSI.fsiResidualOld [((-1 : ℝ), 0)] = ((0, 0), (0, 0)) := by
      simp [aitkenZeroOldFSI, zeroFSI, dotT2]
    rw [hd]
    simp [specNorm2x2]
  constructor
  · rw [hv, specNorm2_single_negOne]
    norm_num
  · have hc1 : ¬ ((3 : ℕ) < 3 ∨ schemeAitken = "FixedRelaxation") := by decide
    have hc2 : (3 : ℕ) ≤ 3 ∧ schemeAitken = "Aitken" := by decide
    simp only [setInterfaceDisplacemet]
    rw [if_neg hc1, if_pos hc2]
    show (if 1 < aitkenFactorRaw aitkenZeroOldFSI then (1 : ℝ)
      else aitkenFactorRaw aitkenZeroOldFSI) = 0
    rw [hraw]
    norm_num

/-! ## C4: invalid coupling scheme prints and falls through -/

/-- C4 (code behaviour at the failing input): calling `setInterfaceDisplacemet`
with `outerCorr = 3` and the unsupported scheme name `"Gauss"` does not abort:
it prints the error message naming the offending scheme and the valid options
and returns with the state unchanged — the run silently continues (the
source's own TODO comment concedes it should halt execution instead). -/
theorem setInterfaceDisplacemet_invalid_continues :
    (setInterfaceDisplacemet zeroFSI 3 schemeGauss).1 = zeroFSI ∧
      (setInterfaceDisplacemet zeroFSI 3 schemeGauss).2 = invalidSchemeMsg schemeGauss := by
  have hc1 : ¬ ((3 : ℕ) < 3 ∨ schemeGauss = "FixedRelaxation") := by decide
  have hc2 : ¬ ((3 : ℕ) ≤ 3 ∧ schemeGauss = "Aitken") := by decide
  simp only [setInterfaceDisplacemet]
  rw [if_neg hc1, if_neg hc2]
  exact ⟨rfl, rfl⟩

/-! ## C10: the invalid-scheme branch mutates no state -/

/-- C10: with `outerCorr ≥ 3` and a coupling scheme that is neither
`FixedRelaxation` nor `Aitken`, every FSI state field — in particular
`fluidNodeDispl`, `fluidNodeDisplOld`, `nodeDispl`, `nodeDisplOld` and
`fsiRelaxationFactor` — is unchanged by the call. -/
theorem setInterfaceDisplacemet_invalid_frame (s : FSI) (outerCorr : ℕ)
    (couplingScheme : String) (h3 : 3 ≤ outerCorr)
    (hf : couplingScheme ≠ "FixedRelaxation") (ha : couplingScheme ≠ "Aitken") :
    (setInterfaceDisplacemet s outerCorr couplingScheme).1.fluidNodeDispl = s.fluidNodeDispl ∧
      (setInterfaceDisplacemet s outerCorr couplingScheme).1.fluidNodeDisplOld =
        s.fluidNodeDisplOld ∧
      (setInterfaceDisplacemet s outerCorr couplingScheme).1.nodeDispl = s.nodeDispl ∧
      (setInterfaceDisplacemet s outerCorr couplingScheme).1.nodeDisplOld = s.nodeDisplOld ∧
      (setInterfaceDisplacemet s outerCorr couplingScheme).1.fsiRelaxationFactor =
        s.fsiRelaxationFactor := by
  have hc1 : ¬ (outerCorr < 3 ∨ couplingScheme = "FixedRelaxation") := by
    push_neg
    exact ⟨by omega, hf⟩
  have hc2 : ¬ (3 ≤ outerCorr ∧ couplingScheme = "Aitken") := fun h => ha h.2
  have hs : (setInterfaceDisplacemet s outerCorr couplingScheme).1 = s := by
    simp only [setInterfaceDisplacemet]
    rw [if_neg hc1, if_neg hc2]
  rw [hs]
  exact ⟨rfl, rfl, rfl, rfl, rfl⟩

theorem setInterfaceDisplacemet_invalid_frame_witness :
    (setInterfaceDisplacemet zeroFSI 3 schemeOther).1.fluidNodeDispl = zeroFSI.fluidNodeDispl ∧
      (setInterfaceDisplacemet zeroFSI 3 schemeOther).1.fluidNodeDisplOld =
        zeroFSI.fluidNodeDisplOld ∧
      (setInterfaceDisplacemet zeroFSI 3 schemeOther).1.nodeDispl = zeroFSI.nodeDispl ∧
      (setInterfaceDisplacemet zeroFSI 3 schemeOther).1.nodeDisplOld = zeroFSI.nodeDisplOld ∧
      (setInterfaceDisplacemet zeroFSI 3 schemeOther).1.fsiRelaxationFactor =
        zeroFSI.fsiRelaxationFactor :=
  setInterfaceDisplacemet_invalid_frame zeroFSI 3 schemeOther (by norm_num)
    (by decide) (by decide)

/-! ## C3: the Kutta iteration always terminates under its hard cap -/

lemma quiltKuttaRun_isSome (env : KuttaEnv) :
    ∀ (fuel nIter : ℕ) (s : KuttaLoop), nIter ≤ 1000 → 1000 < nIter + fuel →
      ∃ n s', quiltKuttaRun env fuel nIter s = some (n, s') ∧ nIter ≤ n ∧ n ≤ 1000 ∧
        (s'.deltaCp0 < 1 / 10000 ∨ 1000 ≤ n) := by
  intro fuel
  induction fuel with
  | zero =>
    intro nIter s h1 h2
    omega
  | succ fuel ih =>
    intro nIter s h1 h2
    simp only [quiltKuttaRun]
    by_cases hex : (quiltKuttaStep env nIter s).deltaCp0 < 1 / 10000 ∨ 1000 ≤ nIter
    · exact ⟨nIter, quiltKuttaStep env nIter s, by rw [if_pos hex], le_refl _, h1, hex⟩
    · have hlt : nIter < 1000 := by
        rcases not_or.mp hex with ⟨_, hcap⟩
        omega
      obtain ⟨n, s', heq, hn1, hn2, hcond⟩ :=
        ih (nIter + 1) (quiltKuttaStep env nIter s) (by omega) (by omega)
      exact ⟨n, s', by rw [if_neg hex, heq], by omega, hn2, hcond⟩

/-- C3: for every input, the `quilt` Kutta loop (single swimmer, `SW_KUTTA`
enabled) terminates: entered with `n_iter = 1` and fuel equal to the hard cap
1000, it returns a result (never runs out of fuel, i.e. raises no error and
keeps the last computed state) at some iteration `n ≤ 1000` at which the exit
test `delta_cp < 1e-4 or n_iter ≥ 1000` holds. -/
theorem quilt_kutta_terminates (env : KuttaEnv) (s : KuttaLoop) :
    ∃ n s', quiltKuttaRun env 1000 1 s = some (n, s') ∧ 1 ≤ n ∧ n ≤ 1000 ∧
      (s'.deltaCp0 < 1 / 10000 ∨ 1000 ≤ n) :=
  quiltKuttaRun_isSome env 1000 1 s (by norm_num) (by norm_num)

/-! ## C5: the second-guess and secant updates of the Kutta loop -/

/-- C5: at iteration `n_iter == 2` the loop switches its solve matrix to the
inverse of the unaugmented `a` and replaces the guess by `0.8` times the
previous (explicit-Kutta) guess; at every iteration `n_iter ≥ 3` the new guess
is the secant step `mu_guess[1] - delta_cp[0] / slope` with `slope` the
finite-difference quotient of the last two `(mu_guess, delta_cp)` pairs. -/
theorem quiltKuttaStep_guess_updates (env : KuttaEnv) (s : KuttaLoop) :
    ((quiltKuttaStep env 2 s).aInv = env.aInvUn ∧
      (quiltKuttaStep env 2 s).muGuess0 = 8 / 10 * s.muGuess0) ∧
    ∀ n, 3 ≤ n → (quiltKuttaStep env n s).muGuess0 =
      s.muGuess0 - s.deltaCp0 / ((s.deltaCp0 - s.deltaCp1) / (s.muGuess0 - s.muGuess1)) := by
  refine ⟨⟨?_, ?_⟩, ?_⟩
  · simp [quiltKuttaStep]
  · simp [quiltKuttaStep]
  · intro n hn
    have h1 : n ≠ 1 := by omega
    have h2 : n ≠ 2 := by omega
    simp [quiltKuttaStep, h1, h2]

/-- Concrete loop environment: empty matrices and an external pressure
collaborator returning no panels (the guess updates do not depend on them). -/
def kuttaEnvW : KuttaEnv where
  aInvAug := []
  aInvUn := [[1]]
  rhs1 := []
  rhsOf := fun _ => []
  cpOf := fun _ => []

/-- Concrete loop state: guesses `(2, 1)` with pressure jumps `(3, 1)`. -/
def kuttaLoopW : KuttaLoop where
  aInv := []
  muGuess0 := 2
  muGuess1 := 1
  deltaCp0 := 3
  deltaCp1 := 1
  mu := []
  cp := []

theorem quiltKuttaStep_guess_updates_witness :
    (quiltKuttaStep kuttaEnvW 3 kuttaLoopW).muGuess0 = 1 / 2 := by
  have h := (quiltKuttaStep_guess_updates kuttaEnvW kuttaLoopW).2 3 (by norm_num)
  rw [h]
  norm_num [kuttaLoopW]

/-! ## C6: the shed wake element strength after `quilt` -/

/-- Concrete swimmer for the post-loop bookkeeping: converged guess 2,
previous edge doublet strength 5, wake strength still at its initial 0. -/
def swimmerPostW : SwimmerPost where
  muPast0 := []
  muPast1 := []
  bodyMu := []
  muGuess0 := 2
  edgeMu0 := 0
  edgeMu1 := 5
  wakeAlpha0 := 0
  edgeGamma0 := 0
  edgeGamma1 := 0
  bodyGamma := []

/-- C6 (amended): at the end of `quilt` for every timestep `i ≥ 2` the first
shed wake element strength satisfies `Wake.alpha[0] = Edge.mu[1] - Edge.mu[0]`
(at `i == 1` the guard `if i > 1` skips the assignment, so the relation is
first established at timestep 2). -/
theorem quiltPost_wake_alpha (i : ℕ) (s : SwimmerPost) (h : 2 ≤ i) :
    (quiltPost i s).wakeAlpha0 = (quiltPost i s).edgeMu1 - (quiltPost i s).edgeMu0 := by
  have h1 : 1 < i := h
  simp [quiltPost, h1]

theorem quiltPost_wake_alpha_witness :
    (quiltPost 2 swimmerPostW).wakeAlpha0 =
      (quiltPost 2 swimmerPostW).edgeMu1 - (quiltPost 2 swimmerPostW).edgeMu0 :=
  quiltPost_wake_alpha 2 swimmerPostW (by norm_num)

/-- C6 (counterexample): at the end of the `quilt` call for timestep `i == 1`
the wake strength is still its initial value (the `if i > 1` guard skips the
assignment), so `Wake.alpha[0] ≠ Edge.mu[1] - Edge.mu[0]` whenever the
trailing-edge circulation jump is nonzero. -/
theorem quiltPost_i1_cex :
    (quiltPost 1 swimmerPostW).wakeAlpha0 ≠
      (quiltPost 1 swimmerPostW).edgeMu1 - (quiltPost 1 swimmerPostW).edgeMu0 := by
  norm_num [quiltPost, swimmerPostW]

/-! ## C9: the first-iteration right-hand side uses the leaked loop variables -/

lemma foldl_some_ignores_init {α : Type} (xs : List α) (hne : xs ≠ []) (i1 i2 : Option α) :
    xs.foldl (fun _ x => some x) i1 = xs.foldl (fun _ x => some x) i2 := by
  cases xs with
  | nil => exact absurd rfl hne
  | cons x xs => rfl

lemma lastLoopVar_cons {α : Type} (x : α) (xs : List α) (hne : xs ≠ []) :
    lastLoopVar (x :: xs) = lastLoopVar xs := by
  show xs.foldl (fun _ y => some y) (some x) = xs.foldl (fun _ y => some y) none
  exact foldl_some_ignores_init xs hne _ _

lemma assignOffsets_last :
    ∀ (sws : List SwimmerRHS) (acc : ℕ) (h : sws ≠ []),
      lastLoopVar (assignOffsets sws acc) =
        some (acc + ((sws.dropLast).map (fun sw => sw.edgeN)).sum, sws.getLast h) := by
  intro sws
  induction sws with
  | nil => intro acc h; exact absurd rfl h
  | cons sw rest ih =>
    intro acc h
    cases rest with
    | nil => simp [assignOffsets, lastLoopVar, List.getLast]
    | cons sw2 rest2 =>
      have hne : (sw2 :: rest2) ≠ [] := List.cons_ne_nil _ _
      rw [show assignOffsets (sw :: sw2 :: rest2) acc =
        (acc, sw) :: assignOffsets (sw2 :: rest2) (acc + sw.edgeN) from rfl]
      rw [lastLoopVar_cons _ _ (by simp [assignOffsets])]
      rw [ih (acc + sw.edgeN) hne]
      have h2 : (sw :: sw2 :: rest2).getLast h = (sw2 :: rest2).getLast hne :=
        List.getLast_cons hne
      rw [h2]
      have h1 : (sw :: sw2 :: rest2).dropLast = sw :: (sw2 :: rest2).dropLast := rfl
      rw [h1]
      simp [Nat.add_assoc]

/-- C9: the explicit-Kutta right-hand side computed on the first iteration
subtracts the previous edge-doublet history term of only the last swimmer of
the list (`SwimI` and `Swim` retain their values from the earlier loops); no
sum of edge-history terms over all swimmers is taken. -/
theorem quiltRhs1_uses_last_swimmer (bs bde : ℕ → ℕ → ℚ) (sws : List SwimmerRHS)
    (h : sws ≠ []) :
    quiltRhs1 bs bde sws = some (fun j =>
      -(dotFn (bs j) (sigmaAll sws)) -
        bde j (((sws.dropLast).map (fun sw => sw.edgeN)).sum + 1) *
          (sws.getLast h).edgeMu1) := by
  unfold quiltRhs1
  rw [assignOffsets_last sws 0 h]
  simp

/-- Concrete two-swimmer fixture for the right-hand-side assembly. -/
def swimmerRHS1 : SwimmerRHS where
  sigma := [1, 2]
  edgeN := 2
  edgeMu1 := 5

def swimmerRHS2 : SwimmerRHS where
  sigma := [3]
  edgeN := 2
  edgeMu1 := 7

def swimmersW : List SwimmerRHS := [swimmerRHS1, swimmerRHS2]

def bsW : ℕ → ℕ → ℚ := fun j k => j + k

def bdeW : ℕ → ℕ → ℚ := fun j k => j * 10 + k

theorem quiltRhs1_uses_last_swimmer_witness :
    (quiltRhs1 bsW bdeW swimmersW).map (fun b => b 0) = some (-29) := by
  rw [quiltRhs1_uses_last_swimmer bsW bdeW swimmersW (by simp [swimmersW])]
  norm_num [swimmersW, swimmerRHS1, swimmerRHS2, bsW, bdeW, dotFn, sigmaAll,
    List.getLast, List.enum, List.enumFrom]

/-! ## C7: wake growth and the rollup position update -/

lemma wakeElems_length (shed : ℕ → ℚ × ℚ) (i : ℕ) : (wakeElems shed i).length = i := by
  induction i with
  | zero => rfl
  | succ n ih => simp [wakeElems, ih]

lemma wakeElems_get? (shed : ℕ → ℚ × ℚ) :
    ∀ i k, k < i → (wakeElems shed i)[k]? = some (shed k) := by
  intro i
  induction i with
  | zero => intro k hk; omega
  | succ n ih =>
    intro k hk
    rw [wakeElems]
    rcases Nat.lt_or_ge k n with hlt | hge
    · rw [List.getElem?_append_left (by rw [wakeElems_length]; exact hlt)]
      exact ih k hlt
    · have hkn : k = n := by omega
      subst hkn
      have hcat := List.getElem?_concat_length (wakeElems shed k) (shed k)
      rw [wakeElems_length] at hcat
      exact hcat

/-- C7 (amended): the wake is append-only as a sequence — after `i` completed
timesteps it holds exactly `i` shed elements in timestep order (growth
modelled from the spec, one element appended per timestep) — but the rollup
of every timestep `i` advects the positions of all relevant elements, i.e.
every element of index `k < i`; an element's position therefore keeps being
updated by every later `wake_rollup` call, not only by the rollup of the
timestep after it was shed. -/
theorem wake_growth_and_advect (shed : ℕ → ℚ × ℚ) (i : ℕ) :
    ((wakeElems shed i).length = i ∧
      ∀ k, k < i → (wakeElems shed i)[k]? = some (shed k)) ∧
    ∀ (delT : ℚ) (vel w : ℕ → ℚ × ℚ) (k : ℕ), 1 ≤ i → k < i →
      wakeRollupAdvect i delT vel w k =
        ((w k).1 + (vel k).1 * delT, (w k).2 + (vel k).2 * delT) := by
  refine ⟨⟨wakeElems_length shed i, wakeElems_get? shed i⟩, ?_⟩
  intro delT vel w k h1 hk
  have h0 : i ≠ 0 := by omega
  simp [wakeRollupAdvect, getRelevant, h0, hk]

/-- Concrete wake fixture: elements shed at `(k, 0)`, unit induced velocity
in `x`, all positions initially at the origin. -/
def shedW : ℕ → ℚ × ℚ := fun k => (k, 0)

def velW : ℕ → ℚ × ℚ := fun _ => (1, 0)

def wakeW : ℕ → ℚ × ℚ := fun _ => (0, 0)

theorem wake_growth_and_advect_witness :
    (wakeElems shedW 2).length = 2 ∧
      (wakeElems shedW 2)[1]? = some (shedW 1) ∧
      wakeRollupAdvect 2 1 velW wakeW 1 =
        ((wakeW 1).1 + (velW 1).1 * 1, (wakeW 1).2 + (velW 1).2 * 1) :=
  ⟨(wake_growth_and_advect shedW 2).1.1,
   (wake_growth_and_advect shedW 2).1.2 1 (by norm_num),
   (wake_growth_and_advect shedW 2).2 1 velW wakeW 1 (by norm_num) (by norm_num)⟩

/-- C7 (counterexample): element 0's position, already placed by the rollup
of timestep 1, is mutated again by the rollup of timestep 2 — refuting the
claim that an element's position is never mutated after the rollup of the
timestep following its shedding. -/
theorem wake_advect_remutation_cex :
    wakeRollupAdvect 2 1 velW (wakeRollupAdvect 1 1 velW wakeW) 0 ≠
      wakeRollupAdvect 1 1 velW wakeW 0 := by
  norm_num [wakeRollupAdvect, getRelevant, velW, wakeW]

/-! ## C8: out-of-domain interpolation fallback -/

lemma npInterpGo_above (r : ℚ) : ∀ (rest : List (ℚ × ℚ)) (x0 f0 x : ℚ),
    x0 < x → (∀ p ∈ rest, p.1 < x) → npInterpGo r x0 f0 rest x = r := by
  intro rest
  induction rest with
  | nil =>
    intro x0 f0 x h0 _
    simp [npInterpGo, h0]
  | cons p ps ih =>
    intro x0 f0 x h0 h
    obtain ⟨x1, f1⟩ := p
    have hp : x1 < x := h (x1, f1) (by simp)
    rw [show npInterpGo r x0 f0 ((x1, f1) :: ps) x =
      if x ≤ x1 then f0 + (f1 - f0) * (x - x0) / (x1 - x0)
      else npInterpGo r x1 f1 ps x from rfl]
    rw [if_neg (not_le.mpr hp)]
    exact ih x1 f1 x hp (fun q hq => h q (List.mem_cons_of_mem _ hq))

/-- C8 (amended): when a query arclength lies outside the sample range, the
`np.interp` calls of `setInterfaceForce` and `getDisplacements` return their
constant fallback values — `0` for the load transfer (`left=0, right=0`) and
`1.0` for the displacement transfer (`left=True, right=True`) — and no error
is raised; the fallback is a defined constant, not the clamped boundary
sample value. -/
theorem interp_out_of_domain (x0 f0 x : ℚ) (pts : List (ℚ × ℚ)) :
    (x < x0 →
      forceInterp ((x0, f0) :: pts) x = some 0 ∧
        displInterp ((x0, f0) :: pts) x = some 1) ∧
    ((∀ p ∈ (x0, f0) :: pts, p.1 < x) →
      forceInterp ((x0, f0) :: pts) x = some 0 ∧
        displInterp ((x0, f0) :: pts) x = some 1) := by
  constructor
  · intro h
    constructor
    · simp [forceInterp, npInterp, if_pos h]
    · simp [displInterp, npInterp, if_pos h]
  · intro h
    have h0 : x0 < x := h (x0, f0) (by simp)
    have hrest : ∀ p ∈ pts, p.1 < x := fun q hq => h q (List.mem_cons_of_mem _ hq)
    have hnx : ¬ x < x0 := asymm h0
    constructor
    · show npInterp 0 0 ((x0, f0) :: pts) x = some 0
      simp only [npInterp]
      rw [if_neg hnx, npInterpGo_above 0 pts x0 f0 x h0 hrest]
    · show npInterp 1 1 ((x0, f0) :: pts) x = some 1
      simp only [npInterp]
      rw [if_neg hnx, npInterpGo_above 1 pts x0 f0 x h0 hrest]

/-- Concrete sample points for the interpolation claims. -/
def ptsW : List (ℚ × ℚ) := [(0, 5), (1, 7)]

theorem interp_out_of_domain_witness :
    forceInterp ptsW (-1) = some 0 ∧ displInterp ptsW (-1) = some 1 ∧
      forceInterp ptsW 2 = some 0 ∧ displInterp ptsW 2 = some 1 := by
  have hb := (interp_out_of_domain 0 5 (-1) [((1 : ℚ), 7)]).1 (by norm_num)
  have ha := (interp_out_of_domain 0 5 2 [((1 : ℚ), 7)]).2
    (by norm_num [List.forall_mem_cons])
  exact ⟨hb.1, hb.2, ha.1, ha.2⟩

/-- C8 (counterexample): an out-of-domain query does not return the clamped
boundary sample: below the domain the load interpolation returns 0, not the
first sample value 5, and above the domain the displacement interpolation
returns 1, not the last sample value 7. -/
theorem interp_not_boundary_cex :
    forceInterp ptsW (-1) ≠ some ((ptsW.headD (0, 0)).2) ∧
      displInterp ptsW 2 ≠ some ((ptsW.getLastD (0, 0)).2) := by
  constructor
  · norm_num [forceInterp, npInterp, npInterpGo, ptsW]
  · norm_num [displInterp, npInterp, npInterpGo, ptsW]

end BEM2D
